import Mathlib

/-!
Verification development for the patch-generation and text-style core of the
ppt_img_editor document-processing service.

The Python sources under src/services/doc_process/src are shallowly embedded:
images are rational-valued rasters with explicit dimensions, Python/numpy
slicing is modelled bound-for-bound (including negative stop indices), machine
float arithmetic is modelled by exact rational arithmetic, fallible steps
return Except, and the pipeline orchestrator (generate_patch) is a total
function that converts internal errors into a failure result, exactly as the
try/except block in pipeline.py does.

External library routines (PIL decode, cv2.inpaint, cv2.GaussianBlur,
cv2.dilate/erode, cv2.kmeans) are not repository code; they are modelled by
their interface behaviour (totality on well-formed input, the assertion
failures they raise on empty input).  No claim below depends on the pixel
values such a routine produces.
-/

/-- A pixel: one rational value per colour channel, in channel order
(c0, c1, c2).  In BGR buffers c0 is blue; in RGB buffers c0 is red. -/
abbrev Px : Type := ℚ × ℚ × ℚ

/-- A three-channel raster with explicit dimensions.  `pix i j` is the pixel
at row i, column j (row-major, matching numpy `image[i, j]`). -/
structure Img where
  h : Nat
  w : Nat
  pix : Nat → Nat → Px

/-- A single-channel raster (a mask), values in [0, 255]. -/
structure GrayImg where
  h : Nat
  w : Nat
  pix : Nat → Nat → ℚ

/-- Axis-aligned bounding box, the dict `{"x", "y", "w", "h"}` of geometry.py.
All fields are signed: clipping and padding legitimately produce negative
coordinates, and (as proved below) clip_bbox_to_image can produce negative
dimensions. -/
structure BBox where
  x : Int
  y : Int
  w : Int
  h : Int
deriving DecidableEq, Repr

/-- Python `int(q)` on a float value: truncation toward zero. -/
def pyInt (q : ℚ) : ℤ :=
  if q < 0 then ⌈q⌉ else ⌊q⌋

/-- numpy `.astype(np.uint8)` on a float value: truncation toward zero, then
reduction mod 256 (the C conversion semantics).  Every use below feeds values
already in [0, 255], where this is plain floor. -/
def u8OfRat (q : ℚ) : ℚ :=
  ((pyInt q).emod 256 : ℤ)

/-- numpy mean of a list of rationals (population mean; 0 on the empty list,
which is never consulted by the callers below). -/
def listMeanQ (l : List ℚ) : ℚ :=
  l.sum / l.length

/-- numpy population variance of a list of rationals.  `np.std(l) < t` for a
nonnegative threshold t is equivalent to `listVarQ l < t ^ 2`, which is how
the standard-deviation tests of bg_fit.py are stated over ℚ (ℚ has no square
root). -/
def listVarQ (l : List ℚ) : ℚ :=
  ((l.map fun v => (v - listMeanQ l) ^ 2).sum) / l.length

/-- Effective index of a Python slice bound `i` on an axis of length `L`:
negative indices count from the end, then the result is clamped to [0, L].
This is the semantics of `a[start:stop]` for ndarray axes (step 1). -/
def sliceIdx (i : Int) (L : Nat) : Nat :=
  (max 0 (min (if i < 0 then i + L else i) (L : Int))).toNat

/-- `img[y0:y1, x0:x1]` for a three-channel ndarray, with full Python slicing
semantics on both axes. -/
def cropImg (img : Img) (y0 y1 x0 x1 : Int) : Img where
  h := sliceIdx y1 img.h - sliceIdx y0 img.h
  w := sliceIdx x1 img.w - sliceIdx x0 img.w
  pix := fun i j => img.pix (sliceIdx y0 img.h + i) (sliceIdx x0 img.w + j)

/-- `m[y0:y1, x0:x1]` for a single-channel ndarray. -/
def cropGray (m : GrayImg) (y0 y1 x0 x1 : Int) : GrayImg where
  h := sliceIdx y1 m.h - sliceIdx y0 m.h
  w := sliceIdx x1 m.w - sliceIdx x0 m.w
  pix := fun i j => m.pix (sliceIdx y0 m.h + i) (sliceIdx x0 m.w + j)

/-- `base[y0:y1, x0:x1] = sub` for a three-channel ndarray (the shapes agree
at every call site below, as they do in the Python source). -/
def assignRegion (base : Img) (y0 y1 x0 x1 : Int) (sub : Img) : Img where
  h := base.h
  w := base.w
  pix := fun i j =>
    if sliceIdx y0 base.h ≤ i ∧ i < sliceIdx y1 base.h ∧
       sliceIdx x0 base.w ≤ j ∧ j < sliceIdx x1 base.w then
      sub.pix (i - sliceIdx y0 base.h) (j - sliceIdx x0 base.w)
    else base.pix i j

/-- The edges of the closed polygon through the given vertices, in order. -/
def edgesOf (quad : List (Int × Int)) : List ((Int × Int) × (Int × Int)) :=
  quad.zip (quad.rotate 1)

/-- Whether integer point (px, py) lies on the closed segment from e.1 to e.2. -/
def onSegmentB (e : (Int × Int) × (Int × Int)) (px py : Int) : Bool :=
  decide ((e.2.1 - e.1.1) * (py - e.1.2) = (e.2.2 - e.1.2) * (px - e.1.1)) &&
  decide (min e.1.1 e.2.1 ≤ px) && decide (px ≤ max e.1.1 e.2.1) &&
  decide (min e.1.2 e.2.2 ≤ py) && decide (py ≤ max e.1.2 e.2.2)

/-- Whether the rightward ray from (px, py) crosses edge e (the standard
even-odd crossing test, evaluated with exact rational arithmetic). -/
def crossesB (e : (Int × Int) × (Int × Int)) (px py : Int) : Bool :=
  decide ((py < e.1.2) ≠ (py < e.2.2)) &&
  decide ((px : ℚ) <
    (e.1.1 : ℚ) + ((e.2.1 : ℚ) - e.1.1) * ((py : ℚ) - e.1.2) / ((e.2.2 : ℚ) - e.1.2))

/-- Point-in-polygon (even-odd fill, boundary pixels included).  This is the
fill semantics of `cv2.fillPoly` used by mask.rasterize_quad on the integer
quadrilaterals of this code base. -/
def insideQuad (quad : List (Int × Int)) (px py : Int) : Bool :=
  (edgesOf quad).any (fun e => onSegmentB e px py) ||
  ((edgesOf quad).countP (fun e => crossesB e px py)) % 2 == 1

/-- mask.rasterize_quad: scanline-fill the quad into a zero-initialized mask of
the image dimensions; 255 inside (edge pixels included), 0 outside. -/
def rasterize_quad (quad : List (Int × Int)) (h w : Nat) : GrayImg where
  h := h
  w := w
  pix := fun i j => if insideQuad quad (j : Int) (i : Int) then 255 else 0

/-- geometry.quad_to_bbox: axis-aligned min/max over the quad points.  Python
`min`/`max` raise ValueError on an empty sequence, hence the Except. -/
def quad_to_bbox (quad : List (Int × Int)) : Except String BBox :=
  match quad with
  | [] => .error "min arg is an empty sequence"
  | p :: ps =>
    let xs := (p :: ps).map Prod.fst
    let ys := (p :: ps).map Prod.snd
    let minX := xs.foldl min p.1
    let maxX := xs.foldl max p.1
    let minY := ys.foldl min p.2
    let maxY := ys.foldl max p.2
    .ok ⟨minX, minY, maxX - minX, maxY - minY⟩

/-- geometry.expand_bbox: grow by `padding` on each side. -/
def expand_bbox (b : BBox) (padding : Int) : BBox :=
  ⟨b.x - padding, b.y - padding, b.w + 2 * padding, b.h + 2 * padding⟩

/-- geometry.clip_bbox_to_image, field for field:
x = max(0, x), y = max(0, y), x2 = min(W, x+w), y2 = min(H, y+h),
result = (x, y, x2-x, y2-y).  Note the subtractions are NOT clamped at 0. -/
def clip_bbox_to_image (b : BBox) (image_width image_height : Nat) : BBox :=
  let x := max 0 b.x
  let y := max 0 b.y
  let x2 := min (image_width : Int) (b.x + b.w)
  let y2 := min (image_height : Int) (b.y + b.h)
  ⟨x, y, x2 - x, y2 - y⟩

/-- bg_fit.is_solid_color over the flat list of background pixels.  The source
computes `np.std(region, axis=(0,1))` per channel and compares each against
the threshold (default 10.0); over ℚ this is stated as variance < threshold².
Returns (is_solid, mean colour), the mean truncated by `.astype(int)`. -/
def is_solid_color (pixels : List Px) (threshold : ℚ := 10) : Bool × Option (ℤ × ℤ × ℤ) :=
  if pixels.isEmpty then (false, none)
  else
    let c0 := pixels.map fun p => p.1
    let c1 := pixels.map fun p => p.2.1
    let c2 := pixels.map fun p => p.2.2
    if listVarQ c0 < threshold ^ 2 ∧ listVarQ c1 < threshold ^ 2 ∧ listVarQ c2 < threshold ^ 2 then
      (true, some (pyInt (listMeanQ c0), pyInt (listMeanQ c1), pyInt (listMeanQ c2)))
    else (false, none)

/-- Ordinary least squares on the points (0, ys 0), (1, ys 1), ... followed by
the mean absolute error of the fit, exactly as scipy.stats.linregress followed
by `np.mean(np.abs(y - y_pred))` computes it (callers guarantee at least two
points, so the slope denominator is nonzero). -/
def linregressMAE (ys : List ℚ) : ℚ :=
  let n := ys.length
  let xs := (List.range n).map fun i => (i : ℚ)
  let xbar := listMeanQ xs
  let ybar := listMeanQ ys
  let sxx := (xs.map fun x => (x - xbar) ^ 2).sum
  let sxy := ((xs.zip ys).map fun p => (p.1 - xbar) * (p.2 - ybar)).sum
  let slope := sxy / sxx
  let intercept := ybar - slope * xbar
  listMeanQ ((xs.zip ys).map fun p => |p.2 - (slope * p.1 + intercept)|)

/-- Per-column means of one channel: `np.mean(region, axis=0)[:, ch]`. -/
def colMeans (img : Img) (ch : Px → ℚ) : List ℚ :=
  (List.range img.w).map fun x =>
    listMeanQ ((List.range img.h).map fun y => ch (img.pix y x))

/-- Per-row means of one channel: `np.mean(region, axis=1)[:, ch]`. -/
def rowMeans (img : Img) (ch : Px → ℚ) : List ℚ :=
  (List.range img.h).map fun y =>
    listMeanQ ((List.range img.w).map fun x => ch (img.pix y x))

/-- bg_fit._fit_horizontal_gradient: per-channel linear fit of column means
against column index, MAEs averaged over the three channels. -/
def hGradMAE (img : Img) : ℚ :=
  (linregressMAE (colMeans img fun p => p.1) +
   linregressMAE (colMeans img fun p => p.2.1) +
   linregressMAE (colMeans img fun p => p.2.2)) / 3

/-- bg_fit._fit_vertical_gradient: per-channel linear fit of row means against
row index, MAEs averaged over the three channels. -/
def vGradMAE (img : Img) : ℚ :=
  (linregressMAE (rowMeans img fun p => p.1) +
   linregressMAE (rowMeans img fun p => p.2.1) +
   linregressMAE (rowMeans img fun p => p.2.2)) / 3

/-- _fit_horizontal_gradient as called: scipy.stats.linregress raises
ValueError when all x values are identical, i.e. when the region has fewer
than two columns. -/
def fitHorizontal (img : Img) : Except String ℚ :=
  if img.w ≤ 1 then .error "Cannot calculate a linear regression if all x values are identical"
  else .ok (hGradMAE img)

/-- _fit_vertical_gradient as called; raises when the region has fewer than
two rows. -/
def fitVertical (img : Img) : Except String ℚ :=
  if img.h ≤ 1 then .error "Cannot calculate a linear regression if all x values are identical"
  else .ok (vGradMAE img)

/-- The gradient parameter dict of bg_fit.fit_linear_gradient. -/
structure GradParams where
  direction : String
  start_color : ℤ × ℤ × ℤ
  end_color : ℤ × ℤ × ℤ
  mae : ℚ
deriving DecidableEq, Repr

/-- `np.mean(region[:, c0:c1, :], axis=(0,1)).astype(int)`: per-channel mean
over all rows and the column range [c0, c1), truncated to int. -/
def meanOverCols (img : Img) (c0 c1 : Nat) : ℤ × ℤ × ℤ :=
  let cols := (List.range (c1 - c0)).map fun k => c0 + k
  let cell := fun (ch : Px → ℚ) =>
    pyInt (listMeanQ (cols.flatMap fun x =>
      (List.range img.h).map fun y => ch (img.pix y x)))
  (cell (fun p => p.1), cell (fun p => p.2.1), cell (fun p => p.2.2))

/-- `np.mean(region[r0:r1, :, :], axis=(0,1)).astype(int)`: per-channel mean
over the row range [r0, r1) and all columns, truncated to int. -/
def meanOverRows (img : Img) (r0 r1 : Nat) : ℤ × ℤ × ℤ :=
  let rows := (List.range (r1 - r0)).map fun k => r0 + k
  let cell := fun (ch : Px → ℚ) =>
    pyInt (listMeanQ (rows.flatMap fun y =>
      (List.range img.w).map fun x => ch (img.pix y x)))
  (cell (fun p => p.1), cell (fun p => p.2.1), cell (fun p => p.2.2))

/-- bg_fit.fit_linear_gradient: returns (is_gradient, params).  The empty
region short-circuits to (False, dict()); the horizontal then the vertical MAE
are computed (either may raise through linregress); the lower-MAE direction is
accepted when its MAE is strictly below 15.0, recording the direction, the
start/end colours averaged over the first/last 5 columns (resp. rows, with
Python `[:5]`/`[-5:]` clamping on narrow regions), and the MAE. -/
def fit_linear_gradient (region : Img) : Except String (Option GradParams) :=
  if region.h = 0 ∨ region.w = 0 then .ok none
  else
    match fitHorizontal region with
    | .error e => .error e
    | .ok h_mae =>
      match fitVertical region with
      | .error e => .error e
      | .ok v_mae =>
        if h_mae < v_mae ∧ h_mae < 15 then
          .ok (some ⟨"horizontal",
            meanOverCols region 0 (min 5 region.w),
            meanOverCols region (sliceIdx (-5) region.w) region.w, h_mae⟩)
        else if v_mae < 15 then
          .ok (some ⟨"vertical",
            meanOverRows region 0 (min 5 region.h),
            meanOverRows region (sliceIdx (-5) region.h) region.h, v_mae⟩)
        else .ok none

/-- bg_fit.generate_solid_fill: np.zeros((h, w, 3)) filled with a constant
colour.  The pipeline passes the CLIPPED BBOX dimensions (bh, bw), which are
signed and can be negative for a bbox fully outside the image; numpy then
raises "negative dimensions are not allowed".  The colour triple comes from
`.astype(int)` means of uint8 data, so it is already in [0, 255] wherever
this is called. -/
def generate_solid_fill (h w : Int) (color : ℤ × ℤ × ℤ) : Except String Img :=
  if h < 0 ∨ w < 0 then .error "negative dimensions are not allowed"
  else .ok { h := h.toNat, w := w.toNat,
             pix := fun _ _ => ((color.1 : ℚ), (color.2.1 : ℚ), (color.2.2 : ℚ)) }

/-- bg_fit.generate_gradient_fill: np.zeros((h, w, 3)) — raising on negative
dimensions exactly like the solid fill, since the pipeline passes the clipped
bbox dimensions here too — then per-pixel linear interpolation between the
start and end colours along the chosen axis, stored with uint8 truncation. -/
def generate_gradient_fill (h w : Int) (params : GradParams) : Except String Img :=
  if h < 0 ∨ w < 0 then .error "negative dimensions are not allowed"
  else .ok { h := h.toNat, w := w.toNat,
             pix := fun y x =>
               let t : ℚ :=
                 if params.direction = "horizontal" then (x : ℚ) / (max (w.toNat - 1) 1 : Nat)
                 else (y : ℚ) / (max (h.toNat - 1) 1 : Nat)
               let mix := fun (s e : ℤ) => u8OfRat ((s : ℚ) * (1 - t) + (e : ℚ) * t)
               (mix params.start_color.1 params.end_color.1,
                mix params.start_color.2.1 params.end_color.2.1,
                mix params.start_color.2.2 params.end_color.2.2) }

/-- mask.dilate_mask wraps cv2.dilate, an external OpenCV morphology routine.
Its only consumer in the pipeline is create_edge_mask, whose result pipeline.py
stores in a variable it never uses, so the pixel values are irrelevant to every
claim; the routine is modelled as a total map. -/
def dilate_mask (m : GrayImg) (kernel_size : Nat := 5) : GrayImg :=
  let _ := kernel_size
  m

/-- mask.erode_mask wraps cv2.erode; modelled like dilate_mask (its pipeline
result is dead). -/
def erode_mask (m : GrayImg) (kernel_size : Nat := 5) : GrayImg :=
  let _ := kernel_size
  m

/-- mask.create_edge_mask: cv2.subtract(dilate, erode), saturating at 0. -/
def create_edge_mask (m : GrayImg) (edge_width : Nat := 8) : GrayImg :=
  let d := dilate_mask m edge_width
  let e := erode_mask m edge_width
  { h := m.h, w := m.w, pix := fun i j => max 0 (d.pix i j - e.pix i j) }

/-- cv2.GaussianBlur (external OpenCV): raises on an empty source, total
otherwise.  No claim depends on the blurred values (the only claim about the
alpha channel, C7, is the feather=false case), so the blur is modelled as an
uninterpreted total map. -/
def cv2_GaussianBlur (m : GrayImg) (sigma : ℚ) : Except String GrayImg :=
  let _ := sigma
  if m.h = 0 ∨ m.w = 0 then .error "OpenCV assertion failed: src is empty in GaussianBlur"
  else .ok m

/-- cv2.inpaint (external OpenCV, Telea or Navier-Stokes): asserts
!src.empty(), total otherwise.  No claim depends on the inpainted pixel
values, so the fill is modelled as an uninterpreted total map of the masked region. -/
def cv2_inpaint (img : Img) (m : GrayImg) (radius : ℚ) : Except String Img :=
  let _ := radius
  if img.h = 0 ∨ img.w = 0 then
    .error "OpenCV assertion failed: src is empty in function inpaint"
  else .ok img

/-- inpaint.inpaint_telea. -/
def inpaint_telea (img : Img) (m : GrayImg) (radius : ℚ := 3) : Except String Img :=
  cv2_inpaint img m radius

/-- inpaint.inpaint_ns. -/
def inpaint_ns (img : Img) (m : GrayImg) (radius : ℚ := 3) : Except String Img :=
  cv2_inpaint img m radius

/-- inpaint.inpaint_auto: dispatch on the method string; "auto" defaults to
Telea. -/
def inpaint_auto (img : Img) (m : GrayImg) (method : String := "auto")
    (radius : ℚ := 5) : Except String Img :=
  if method = "telea" then inpaint_telea img m radius
  else if method = "ns" then inpaint_ns img m radius
  else inpaint_telea img m radius

/-- An RGBA raster: the decoded content of the lossless PNG that
compose.create_transparent_patch emits.  PNG encoding is lossless, so the
byte string is modelled by the raster it encodes. -/
structure RGBA where
  h : Nat
  w : Nat
  rgb : Nat → Nat → Px
  alpha : Nat → Nat → ℚ

/-- Channel swap of cv2.cvtColor between BGR and RGB. -/
def swapChannels (p : Px) : Px :=
  (p.2.2, p.2.1, p.1)

/-- compose.create_transparent_patch: clamp the bbox origin at 0, crop the
background and the mask with Python slice semantics
(x2 = min(w, x_clamped + bbox.w)), use the mask crop as the alpha channel
(Gaussian-feathered when feather is set, raising on an empty crop as OpenCV
does), convert BGR to RGB, and encode losslessly (PIL raises on a zero-area
raster). -/
def create_transparent_patch (background : Img) (mask : GrayImg) (bbox : BBox)
    (feather : Bool := true) : Except String RGBA :=
  let x := max 0 bbox.x
  let y := max 0 bbox.y
  let x2 := min (background.w : Int) (x + bbox.w)
  let y2 := min (background.h : Int) (y + bbox.h)
  let bg_crop := cropImg background y y2 x x2
  let mask_crop := cropGray mask y y2 x x2
  match (if feather then cv2_GaussianBlur mask_crop (3 / 2) else .ok mask_crop) with
  | .error e => .error e
  | .ok alpha =>
    if bg_crop.h = 0 ∨ bg_crop.w = 0 then .error "PIL cannot write a zero-area PNG"
    else .ok { h := bg_crop.h, w := bg_crop.w,
               rgb := fun i j => swapChannels (bg_crop.pix i j),
               alpha := fun i j => alpha.pix i j }

/-- One channel of the alpha blend of compose.blend_patch_with_alpha:
overlay * (a/255) + base * (1 - a/255), then `.astype(np.uint8)`. -/
def u8BlendPx (patchPx : Px) (a : ℚ) (basePx : Px) : Px :=
  let t := a / 255
  (u8OfRat (patchPx.1 * t + basePx.1 * (1 - t)),
   u8OfRat (patchPx.2.1 * t + basePx.2.1 * (1 - t)),
   u8OfRat (patchPx.2.2 * t + basePx.2.2 * (1 - t)))

/-- compose.blend_patch_with_alpha: if the overlay extends out of bounds in ANY
direction (x < 0, y < 0, x + pw > W, or y + ph > H) the unmodified base is
returned; otherwise the overlay rectangle is alpha-blended in place. -/
def blend_patch_with_alpha (base_image patch : Img) (patch_alpha : GrayImg)
    (offset : Int × Int) : Img :=
  let x := offset.1
  let y := offset.2
  let ph := patch.h
  let pw := patch.w
  if x < 0 ∨ y < 0 ∨ x + pw > base_image.w ∨ y + ph > base_image.h then base_image
  else
    { h := base_image.h, w := base_image.w,
      pix := fun i j =>
        if y.toNat ≤ i ∧ i < y.toNat + ph ∧ x.toNat ≤ j ∧ j < x.toNat + pw then
          u8BlendPx (patch.pix (i - y.toNat) (j - x.toNat))
            (patch_alpha.pix (i - y.toNat) (j - x.toNat)) (base_image.pix i j)
        else base_image.pix i j }

/-- Modelled from the spec: the alpha_blend contract as section 4.4 words it —
out-of-bounds overlays are clipped to the valid intersection and blended
there; only a fully out-of-bounds placement is a no-op.  Stated only to be
compared against blend_patch_with_alpha (claim C6). -/
def blend_patch_spec (base_image patch : Img) (patch_alpha : GrayImg)
    (offset : Int × Int) : Img :=
  let x := offset.1
  let y := offset.2
  { h := base_image.h, w := base_image.w,
    pix := fun i j =>
      if y ≤ (i : Int) ∧ (i : Int) < y + patch.h ∧ x ≤ (j : Int) ∧ (j : Int) < x + patch.w then
        u8BlendPx (patch.pix ((i - y).toNat) ((j - x).toNat))
          (patch_alpha.pix ((i - y).toNat) ((j - x).toNat)) (base_image.pix i j)
      else base_image.pix i j }

/-- The debug_info dict that pipeline.generate_patch builds up.  Python adds
keys as the pipeline progresses; absent keys are modelled as `none`. -/
structure DebugInfo where
  mode : String
  algo_version : String
  padding_px : Int
  bbox_orig : Option BBox := none
  bbox_final : Option BBox := none
  solid_color : Option (ℤ × ℤ × ℤ) := none
  gradient_params : Option GradParams := none
  inpaint_method : Option String := none
  bg_model : Option String := none
deriving DecidableEq, Repr

/-- An OCR candidate as generate_patch consumes it: the quad (required) and
the optional explicit bbox. -/
structure Candidate where
  quad : List (Int × Int)
  bbox : Option BBox := none

/-- Raw encoded image bytes, modelled by their decode outcome: PIL.Image.open
either yields a decoded RGB raster or raises (undecodable bytes). -/
inductive ImageBytes where
  | valid (img : Img)
  | invalid (msg : String)

/-- `Image.open` + `convert RGB` + `np.array`: the decode step of the
pipeline. -/
def decodeImage (b : ImageBytes) : Except String Img :=
  match b with
  | .valid img => .ok img
  | .invalid msg => .error msg

/-- cv2.cvtColor(image, COLOR_RGB2BGR): per-pixel channel swap. -/
def cvtColor_RGB2BGR (img : Img) : Img :=
  { img with pix := fun i j => swapChannels (img.pix i j) }

/-- pipeline.PatchGenerationResult. -/
structure PatchGenerationResult where
  success : Bool
  patch_bytes : Option RGBA := none
  bbox : Option BBox := none
  debug_info : DebugInfo
  error : Option String := none

/-- `roi[roi_mask == 0]`: the background pixels of the ROI, row-major. -/
def bgPixelList (roi : Img) (roi_mask : GrayImg) : List Px :=
  (List.range roi.h).flatMap fun i =>
    (List.range roi.w).filterMap fun j =>
      if roi_mask.pix i j = 0 then some (roi.pix i j) else none

/-- `filled_roi[roi_mask > 0] = fill[roi_mask > 0]`: substitute the fill into
the masked pixels only, leaving background pixels untouched. -/
def overlayMasked (roi : Img) (roi_mask : GrayImg) (fill : Img) : Img :=
  { roi with pix := fun i j =>
      if roi_mask.pix i j > 0 then fill.pix i j else roi.pix i j }

/-- pipeline.py lines 133-139 (step 5): reached with bg_model still
"fallback" (or mode == "inpaint"); builds the (unused) edge mask, inpaints the
whole ROI, and records the method. -/
def inpaint_step (roi : Img) (roi_mask : GrayImg) (dbg : DebugInfo) :
    Except String (String × Img × DebugInfo) :=
  let _edge := create_edge_mask roi_mask 6
  match inpaint_auto roi roi_mask "telea" 7 with
  | .error e => .error e
  | .ok filled => .ok ("inpaint", filled, { dbg with inpaint_method := some "telea" })

/-- pipeline.py lines 120-139: the gradient attempt (guarded by
`bg_model == "fallback"`, mode in the gradient modes, and
`bg_region.size > 100` — bg_region has THREE elements per background pixel)
followed by the inpaint fallback.  bh and bw are the clipped bbox dimensions
that line 128 passes to generate_gradient_fill; gradient_params is recorded
only after the fill is generated (line 130), so a negative-dimension
ValueError aborts before recording. -/
def gradient_then_inpaint (mode : String) (roi : Img) (roi_mask : GrayImg)
    (bh bw : Int) (bgCount : Nat) (dbg : DebugInfo) :
    Except String (String × Img × DebugInfo) :=
  if (mode = "auto" ∨ mode = "gradient") ∧ 3 * bgCount > 100 then
    match fit_linear_gradient roi with
    | .error e => .error e
    | .ok (some params) =>
      match generate_gradient_fill bh bw params with
      | .error e => .error e
      | .ok fill =>
        .ok ("gradient", overlayMasked roi roi_mask fill,
          { dbg with gradient_params := some params })
    | .ok none => inpaint_step roi roi_mask dbg
  else inpaint_step roi roi_mask dbg

/-- pipeline.py lines 102-139 (steps 3-5): background analysis and fill.  In
the solid modes the source calls
`is_solid_color(bg_pixels.reshape(-1, bg_pixels.shape[-1], 3))`; bg_pixels has
shape (N, 3), so the reshape target is (-1, 3, 3) and numpy raises ValueError
whenever 3N is not a multiple of 9, i.e. whenever N mod 3 is nonzero (when it
is a multiple, the per-channel statistics over the (N/3, 3, 3) view coincide
with those over the (N, 3) data, since the trailing axis still holds one pixel
per triple).  bh and bw are the clipped bbox dimensions that line 114 passes
to generate_solid_fill; solid_color is recorded only after the fill is
generated (line 117), so a negative-dimension ValueError aborts before
recording.  When bh and bw are nonnegative they coincide with the ROI
dimensions, as the clipped slice selects exactly bh rows and bw columns. -/
def select_background (mode : String) (roi : Img) (roi_mask : GrayImg)
    (bh bw : Int) (dbg : DebugInfo) : Except String (String × Img × DebugInfo) :=
  let bg_pixels := bgPixelList roi roi_mask
  if mode = "auto" ∨ mode = "solid" then
    if bg_pixels.length % 3 = 0 then
      let sc := is_solid_color bg_pixels
      if sc.1 then
        let color := sc.2.getD (0, 0, 0)
        match generate_solid_fill bh bw color with
        | .error e => .error e
        | .ok fill =>
          .ok ("solid", overlayMasked roi roi_mask fill,
            { dbg with solid_color := some color })
      else gradient_then_inpaint mode roi roi_mask bh bw bg_pixels.length dbg
    else .error "cannot reshape array into shape (3,3)"
  else gradient_then_inpaint mode roi roi_mask bh bw bg_pixels.length dbg

/-- pipeline.generate_patch, the body of the try block: decode, derive the
padded and clipped bbox, rasterize the mask, analyse and fill the background,
and compose the transparent patch.  Errors carry the debug_info dict as
populated at the moment the underlying exception is raised. -/
def generate_patch_core (image_bytes : ImageBytes) (candidate : Candidate)
    (padding_px : Int) (mode : String) (algo_version : String) :
    Except (String × DebugInfo) (RGBA × BBox × DebugInfo) :=
  let dbg0 : DebugInfo := { mode := mode, algo_version := algo_version, padding_px := padding_px }
  match decodeImage image_bytes with
  | .error e => .error (e, dbg0)
  | .ok img =>
    let image_bgr := cvtColor_RGB2BGR img
    let w := image_bgr.w
    let h := image_bgr.h
    match (match candidate.bbox with
           | some b => Except.ok b
           | none => quad_to_bbox candidate.quad) with
    | .error e => .error (e, dbg0)
    | .ok bbox_orig =>
      let bbox_padded := expand_bbox bbox_orig padding_px
      let bbox_final := clip_bbox_to_image bbox_padded w h
      let mask := rasterize_quad candidate.quad h w
      let dbg1 := { dbg0 with bbox_orig := some bbox_orig, bbox_final := some bbox_final }
      let roi := cropImg image_bgr bbox_final.y (bbox_final.y + bbox_final.h)
        bbox_final.x (bbox_final.x + bbox_final.w)
      let roi_mask := cropGray mask bbox_final.y (bbox_final.y + bbox_final.h)
        bbox_final.x (bbox_final.x + bbox_final.w)
      match select_background mode roi roi_mask bbox_final.h bbox_final.w dbg1 with
      | .error e => .error (e, dbg1)
      | .ok (bg_model, filled_roi, dbg2) =>
        let dbg3 := { dbg2 with bg_model := some bg_model }
        let result_image := assignRegion image_bgr bbox_final.y (bbox_final.y + bbox_final.h)
          bbox_final.x (bbox_final.x + bbox_final.w) filled_roi
        match create_transparent_patch result_image mask bbox_final true with
        | .error e => .error (e, dbg3)
        | .ok patch => .ok (patch, bbox_final, dbg3)

/-- pipeline.generate_patch: the try/except wrapper.  Every internal failure
is caught and reported through success=False plus the exception text; the
function is total (it never raises past its boundary). -/
def generate_patch (image_bytes : ImageBytes) (candidate : Candidate)
    (padding_px : Int := 8) (mode : String := "auto")
    (algo_version : String := "v1") : PatchGenerationResult :=
  match generate_patch_core image_bytes candidate padding_px mode algo_version with
  | .ok (patch, bbox_final, dbg) =>
    { success := true, patch_bytes := some patch, bbox := some bbox_final,
      debug_info := dbg, error := none }
  | .error (e, dbg) =>
    { success := false, patch_bytes := none, bbox := none,
      debug_info := dbg, error := some e }

/-- Whether the text contains a CJK ideograph, the
`any(chr(0x4e00) <= c <= chr(0x9fff))` test of text_style.py. -/
def hasChinese (text : String) : Bool :=
  text.data.any fun c => decide (0x4e00 ≤ c.toNat ∧ c.toNat ≤ 0x9fff)

/-- `any(c.isupper() for c in text if c.isalpha())`. -/
def hasUppercase (text : String) : Bool :=
  text.data.any fun c => c.isAlpha && c.isUpper

/-- `any(c.islower() for c in text if c.isalpha())`. -/
def hasLowercase (text : String) : Bool :=
  text.data.any fun c => c.isAlpha && c.isLower

/-- text_style.estimate_font_size, the simple fixed-ratio estimate:
`max(12, int(bbox_h * scale_factor))`.  There is no upper clamp here. -/
def estimate_font_size (bbox : BBox) (scale_factor : ℚ := 0.75) : ℤ :=
  max 12 (pyInt ((bbox.h : ℚ) * scale_factor))

/-- text_style.estimate_font_size_adaptive: base ratio chosen from the script
content, adjusted by the bbox-height bracket and the OCR confidence, then
clamped to [12, 500]. -/
def estimate_font_size_adaptive (bbox : BBox) (text : String)
    (confidence : ℚ := 1) : ℤ :=
  if bbox.h = 0 then 12
  else
    let base_scale : ℚ :=
      if hasChinese text then 0.80
      else if hasUppercase text && !hasLowercase text then 0.70
      else if hasLowercase text && !hasUppercase text then 0.85
      else 0.75
    let height_adjust : ℚ :=
      if bbox.h < 20 then 1.05
      else if bbox.h < 40 then 1.0
      else if bbox.h < 60 then 0.97
      else 0.94
    let confidence_adjust : ℚ :=
      if confidence < 0.7 then 0.95
      else if confidence < 0.85 then 0.98
      else 1.0
    let scale := base_scale * height_adjust * confidence_adjust
    max 12 (min (pyInt ((bbox.h : ℚ) * scale)) 500)

/-- text_style.estimate_font_size_from_pixels: vertical pixel-density
projection of the mask ROI; the rows whose normalized density exceeds 0.3 form
the main body, whose height divided by the script-dependent cap-height ratio
gives the size, clamped to [12, 500].  Every infeasible case (zero bbox
height, empty mask, degenerate clamped ROI, all-zero projection) returns the
simple fixed-ratio estimate; the function catches its own exceptions and is
total (the `image` argument is unused by the source as well). -/
def estimate_font_size_from_pixels (image : Img) (mask : GrayImg) (bbox : BBox)
    (text : String := "") : ℤ :=
  let _ := image
  if bbox.h = 0 ∨ mask.h * mask.w = 0 then estimate_font_size bbox
  else
    let y : Int := max 0 (min bbox.y ((mask.h : Int) - 1))
    let x : Int := max 0 (min bbox.x ((mask.w : Int) - 1))
    let h : Int := min bbox.h ((mask.h : Int) - y)
    let w : Int := min bbox.w ((mask.w : Int) - x)
    if h ≤ 0 ∨ w ≤ 0 then estimate_font_size bbox
    else
      let proj : List ℕ := (List.range h.toNat).map fun i =>
        (List.range w.toNat).countP fun j => decide (mask.pix (y.toNat + i) (x.toNat + j) > 0)
      let maxProj : ℕ := proj.foldr max 0
      if proj.length = 0 ∨ maxProj = 0 then estimate_font_size bbox
      else
        let main_height : ℕ := proj.countP fun (v : ℕ) => decide ((v : ℚ) / (maxProj : ℚ) > 0.3)
        let cap_ratio : ℚ := if hasChinese text then 0.75 else 0.68
        max 12 (min (pyInt ((main_height : ℚ) / cap_ratio)) 500)

/-- The fontSize computation of text_style.estimate_text_style (lines
404-423): dispatch on font_size_method.  The "auto" branch wraps the pixel
path in try/except with estimate_font_size_adaptive as the fallback, but
estimate_font_size_from_pixels handles every infeasible input internally
(its own try/except falls back to the simple estimate), so for a candidate
carrying a well-formed bbox dict the except branch is unreachable and "auto"
always takes the pixel path result.  The colour and weight estimators of
estimate_text_style do not feed into fontSize. -/
def estimate_text_style_font_size (image : Img) (mask : GrayImg) (bbox : BBox)
    (text : String) (confidence : ℚ) (font_size_method : String) : ℤ :=
  if font_size_method = "auto" then estimate_font_size_from_pixels image mask bbox text
  else if font_size_method = "pixel" then estimate_font_size_from_pixels image mask bbox text
  else if font_size_method = "adaptive" then estimate_font_size_adaptive bbox text confidence
  else estimate_font_size bbox

/-- A uniform white raster, used as a concrete test image. -/
def whiteImg (h w : Nat) : Img :=
  ⟨h, w, fun _ _ => (255, 255, 255)⟩

/-- A 6x6 horizontal grey ramp (column x has value 40x in every channel). -/
def gradImg6 : Img :=
  ⟨6, 6, fun _ x => ((40 * x : ℕ), (40 * x : ℕ), (40 * x : ℕ))⟩

/-- A 5x5 all-zero mask. -/
def zeroMask5 : GrayImg :=
  ⟨5, 5, fun _ _ => 0⟩

/-- A 6x6 all-zero mask. -/
def zeroMask6 : GrayImg :=
  ⟨6, 6, fun _ _ => 0⟩

/-- Candidate whose quad lies outside a 2x2 image and whose bbox selects a
2x1 ROI: the ROI then holds 2 background pixels, and 2 mod 3 is nonzero. -/
def candReshape : Candidate :=
  ⟨[(5, 5), (6, 5), (6, 6), (5, 6)], some ⟨0, 0, 2, 1⟩⟩

/-- Candidate whose quad lies outside a 6x6 image and whose bbox selects the
whole image: 36 background pixels. -/
def candGradient : Candidate :=
  ⟨[(10, 10), (11, 10), (11, 11), (10, 11)], some ⟨0, 0, 6, 6⟩⟩

/-- Candidate whose bbox (and quad) lies fully outside a 13-wide, 5-tall
image on the left: x + w = -10 < 0. -/
def candOutside : Candidate :=
  ⟨[(-12, 0), (-11, 0), (-11, 4), (-12, 4)], some ⟨-12, 0, 2, 5⟩⟩

/-- A 1x2 all-black base image for the blend tests. -/
def blendBase : Img :=
  ⟨1, 2, fun _ _ => (0, 0, 0)⟩

/-- A 1x2 uniform grey overlay for the blend tests. -/
def blendPatch : Img :=
  ⟨1, 2, fun _ _ => (200, 200, 200)⟩

/-- A 1x2 alpha plane at full coverage for the blend tests. -/
def blendAlpha : GrayImg :=
  ⟨1, 2, fun _ _ => 255⟩

/-- C1: for every input (image bytes, candidate, padding, mode, algo version),
generate_patch returns a PatchGenerationResult in which patch_bytes is present
if and only if success is true and the error string is present if and only if
success is false.  Totality of the Lean function embodies the policy that the
orchestrator never raises past its boundary: every internal failure is a
caught Except value. -/
theorem generate_patch_result_shape (image_bytes : ImageBytes) (candidate : Candidate)
    (padding_px : Int) (mode algo_version : String) :
    ((generate_patch image_bytes candidate padding_px mode algo_version).patch_bytes.isSome = true ↔
      (generate_patch image_bytes candidate padding_px mode algo_version).success = true) ∧
    ((generate_patch image_bytes candidate padding_px mode algo_version).error.isSome = true ↔
      (generate_patch image_bytes candidate padding_px mode algo_version).success = false) := by
  cases h : generate_patch_core image_bytes candidate padding_px mode algo_version with
  | ok v => simp [generate_patch, h]
  | error e => simp [generate_patch, h]

/-- C5 counterexample: a bbox lying fully to the right of a 100x100 image is
clipped to width -100, so clip_bbox_to_image does produce a negative
dimension, contrary to the claim. -/
theorem clip_negative_width_cex :
    (clip_bbox_to_image ⟨200, 0, 10, 10⟩ 100 100).w = -100 ∧
    ¬ 0 ≤ (clip_bbox_to_image ⟨200, 0, 10, 10⟩ 100 100).w := by
  decide

/-- C5 amended: clip_bbox_to_image always yields x ≥ 0, y ≥ 0, x + w ≤ width
and y + h ≤ height; the dimensions are nonnegative on each axis whenever the
input bbox extent touches the image range on that axis (0 ≤ w, x ≤ width and
x + w ≥ 0, and similarly for y), but a bbox lying fully outside on an axis is
clipped to a negative dimension on that axis. -/
theorem clip_bbox_to_image_bounds (b : BBox) (W H : Nat) :
    (0 ≤ (clip_bbox_to_image b W H).x ∧ 0 ≤ (clip_bbox_to_image b W H).y ∧
     (clip_bbox_to_image b W H).x + (clip_bbox_to_image b W H).w ≤ W ∧
     (clip_bbox_to_image b W H).y + (clip_bbox_to_image b W H).h ≤ H) ∧
    (0 ≤ b.w → b.x ≤ W → 0 ≤ b.x + b.w → 0 ≤ (clip_bbox_to_image b W H).w) ∧
    (0 ≤ b.h → b.y ≤ H → 0 ≤ b.y + b.h → 0 ≤ (clip_bbox_to_image b W H).h) := by
  simp only [clip_bbox_to_image]
  omega

/-- C5 witness: the amended clip bounds evaluated on a bbox overlapping the
left edge of a 4x4 image. -/
theorem clip_bbox_to_image_bounds_witness :
    0 ≤ (clip_bbox_to_image ⟨-3, 2, 5, 5⟩ 4 4).w ∧
    0 ≤ (clip_bbox_to_image ⟨-3, 2, 5, 5⟩ 4 4).h := by
  exact ⟨(clip_bbox_to_image_bounds ⟨-3, 2, 5, 5⟩ 4 4).2.1 (by decide) (by decide) (by decide),
         (clip_bbox_to_image_bounds ⟨-3, 2, 5, 5⟩ 4 4).2.2 (by decide) (by decide) (by decide)⟩

/-- The simple fixed-ratio estimate is at least 12 (it has no upper clamp). -/
theorem twelve_le_estimate_font_size (bbox : BBox) (sf : ℚ) :
    12 ≤ estimate_font_size bbox sf :=
  le_max_left 12 _

/-- The adaptive estimate lands in [12, 500]. -/
theorem estimate_font_size_adaptive_mem (bbox : BBox) (text : String) (confidence : ℚ) :
    12 ≤ estimate_font_size_adaptive bbox text confidence ∧
    estimate_font_size_adaptive bbox text confidence ≤ 500 := by
  unfold estimate_font_size_adaptive
  split
  · omega
  · exact ⟨le_max_left _ _, max_le (by norm_num) (min_le_right _ _)⟩

/-- The pixel-projection estimate is at least 12: its main path is clamped and
every fallback is the simple estimate. -/
theorem twelve_le_estimate_font_size_from_pixels (image : Img) (mask : GrayImg)
    (bbox : BBox) (text : String) :
    12 ≤ estimate_font_size_from_pixels image mask bbox text := by
  simp only [estimate_font_size_from_pixels]
  split_ifs <;> first
    | exact twelve_le_estimate_font_size bbox _
    | exact le_max_left 12 _

unseal Rat.mul Rat.add Rat.sub Rat.inv Rat.ofScientific in
/-- C8 counterexample: with font_size_method "simple" and a candidate bbox of
height 1000, the Text Style Estimator returns 750, outside [12, 500]. -/
theorem font_size_simple_exceeds_500_cex :
    estimate_text_style_font_size (whiteImg 5 5) zeroMask5 ⟨0, 0, 10, 1000⟩ "" 1 "simple" = 750 ∧
    ¬ estimate_text_style_font_size (whiteImg 5 5) zeroMask5 ⟨0, 0, 10, 1000⟩ "" 1 "simple" ≤ 500 := by
  decide

/-- C8 amended: for every candidate and every font-size method the estimator
returns an integer of at least 12; the adaptive method is additionally clamped
to at most 500, but the simple fixed-ratio method (also reached as the
fallback of the pixel and auto paths) clamps only from below and can exceed
500. -/
theorem font_size_bounds (image : Img) (mask : GrayImg) (bbox : BBox)
    (text : String) (confidence : ℚ) (method : String) :
    12 ≤ estimate_text_style_font_size image mask bbox text confidence method ∧
    (method = "adaptive" →
      estimate_text_style_font_size image mask bbox text confidence method ≤ 500) := by
  constructor
  · unfold estimate_text_style_font_size
    split
    · exact twelve_le_estimate_font_size_from_pixels image mask bbox text
    · split
      · exact twelve_le_estimate_font_size_from_pixels image mask bbox text
      · split
        · exact (estimate_font_size_adaptive_mem bbox text confidence).1
        · exact twelve_le_estimate_font_size bbox _
  · intro hm
    subst hm
    simp only [estimate_text_style_font_size, reduceIte]
    exact (estimate_font_size_adaptive_mem bbox text confidence).2

/-- C8 witness: the bounds evaluated for the adaptive method on a tall bbox. -/
theorem font_size_bounds_witness :
    12 ≤ estimate_text_style_font_size (whiteImg 5 5) zeroMask5 ⟨0, 0, 10, 1000⟩ "" 1 "adaptive" ∧
    estimate_text_style_font_size (whiteImg 5 5) zeroMask5 ⟨0, 0, 10, 1000⟩ "" 1 "adaptive" ≤ 500 :=
  ⟨(font_size_bounds (whiteImg 5 5) zeroMask5 ⟨0, 0, 10, 1000⟩ "" 1 "adaptive").1,
   (font_size_bounds (whiteImg 5 5) zeroMask5 ⟨0, 0, 10, 1000⟩ "" 1 "adaptive").2 rfl⟩

/-- Folding max over a list of zeros yields zero (np.max of an all-zero
projection). -/
theorem foldr_max_eq_zero {l : List ℕ} (h : ∀ v ∈ l, v = 0) : l.foldr max 0 = 0 := by
  induction l with
  | nil => rfl
  | cons a t ih =>
    have ha := h a (by simp)
    have ht := ih fun v hv => h v (by simp [hv])
    simp [ha, ht]

unseal Rat.mul Rat.add Rat.sub Rat.inv Rat.ofScientific in
/-- C9 counterexample: with an all-zero (degenerate) mask and a bbox of height
1000, the auto mode returns 750 — the simple bbox_height * 0.75 fallback —
while the content-adaptive heuristic returns 500, so the auto mode does not
fall back to the adaptive heuristic. -/
theorem auto_font_size_fallback_cex :
    estimate_text_style_font_size (whiteImg 5 5) zeroMask5 ⟨0, 0, 10, 1000⟩ "" 1 "auto" = 750 ∧
    estimate_font_size_adaptive ⟨0, 0, 10, 1000⟩ "" 1 = 500 ∧
    (750 : ℤ) ≠ 500 := by
  decide

/-- C9 amended: the auto mode always returns the result of the
pixel-projection estimator, because estimate_font_size_from_pixels handles every infeasible input
internally; in particular, on a degenerate (all-zero) mask the auto mode
returns the simple fixed bbox_height * 0.75 estimate, not the
content-adaptive heuristic (the adaptive fallback of the auto branch is
unreachable for well-formed candidates). -/
theorem auto_font_size_fallback (image : Img) (mask : GrayImg) (bbox : BBox)
    (text : String) (confidence : ℚ) :
    estimate_text_style_font_size image mask bbox text confidence "auto" =
      estimate_font_size_from_pixels image mask bbox text ∧
    ((∀ i j, mask.pix i j = 0) →
      estimate_text_style_font_size image mask bbox text confidence "auto" =
        estimate_font_size bbox) := by
  have h1 : estimate_text_style_font_size image mask bbox text confidence "auto" =
      estimate_font_size_from_pixels image mask bbox text := by
    simp [estimate_text_style_font_size]
  refine ⟨h1, fun hz => ?_⟩
  rw [h1]
  simp only [estimate_font_size_from_pixels]
  split_ifs with h2 h3 h4 hc <;> try rfl
  all_goals
    refine absurd (Or.inr (foldr_max_eq_zero fun v hv => ?_)) h4
  all_goals
    rcases List.mem_map.mp hv with ⟨i, _, rfl⟩
  all_goals
    exact List.countP_eq_zero.mpr fun j _ => by simp [hz]

/-- C9 witness: the amended fall-back equality evaluated on a concrete
all-zero mask. -/
theorem auto_font_size_fallback_witness :
    estimate_text_style_font_size (whiteImg 5 5) zeroMask5 ⟨0, 0, 8, 40⟩ "ab" 1 "auto" =
      estimate_font_size ⟨0, 0, 8, 40⟩ :=
  (auto_font_size_fallback (whiteImg 5 5) zeroMask5 ⟨0, 0, 8, 40⟩ "ab" 1).2
    (fun _ _ => rfl)

unseal Rat.mul Rat.add Rat.sub Rat.inv Rat.ofScientific in
/-- C6 counterexample: a 1x2 full-coverage overlay placed at offset (1, 0) on a 1x2
base overlaps the base in column 1, yet blend_patch_with_alpha returns the
base unchanged because the overlay extends one column past the right edge; the
spec-worded clipped blend would paint that column with the overlay value. -/
theorem blend_partial_oob_cex :
    blend_patch_with_alpha blendBase blendPatch blendAlpha (1, 0) = blendBase ∧
    (blend_patch_spec blendBase blendPatch blendAlpha (1, 0)).pix 0 1 = (200, 200, 200) ∧
    blendBase.pix 0 1 ≠ (200, 200, 200) := by
  refine ⟨rfl, by decide, by decide⟩

/-- C6 amended: blend_patch_with_alpha computes
overlay * alpha + base * (1 - alpha) (alpha normalized to [0, 1], uint8
truncation) over the overlay rectangle only when the overlay lies fully inside
the base; an overlay extending out of bounds in ANY direction — even partially
— is a no-op returning the unmodified base, not a clipped blend. -/
theorem blend_patch_oob_noop (base patch : Img) (alpha : GrayImg) (x y : Int) :
    ((x < 0 ∨ y < 0 ∨ x + patch.w > base.w ∨ y + patch.h > base.h) →
      blend_patch_with_alpha base patch alpha (x, y) = base) ∧
    ((0 ≤ x ∧ 0 ≤ y ∧ x + patch.w ≤ base.w ∧ y + patch.h ≤ base.h) →
      ((blend_patch_with_alpha base patch alpha (x, y)).h = base.h ∧
       (blend_patch_with_alpha base patch alpha (x, y)).w = base.w ∧
       (∀ i j, y.toNat ≤ i ∧ i < y.toNat + patch.h ∧ x.toNat ≤ j ∧ j < x.toNat + patch.w →
         (blend_patch_with_alpha base patch alpha (x, y)).pix i j =
           u8BlendPx (patch.pix (i - y.toNat) (j - x.toNat))
             (alpha.pix (i - y.toNat) (j - x.toNat)) (base.pix i j)) ∧
       (∀ i j, ¬ (y.toNat ≤ i ∧ i < y.toNat + patch.h ∧ x.toNat ≤ j ∧ j < x.toNat + patch.w) →
         (blend_patch_with_alpha base patch alpha (x, y)).pix i j = base.pix i j))) := by
  constructor
  · intro h
    simp only [blend_patch_with_alpha]
    rw [if_pos h]
  · intro h
    have hn : ¬ (x < 0 ∨ y < 0 ∨ x + (patch.h, patch.w).2 > base.w ∨
        y + (patch.h, patch.w).1 > base.h) := by
      push_neg
      omega
    simp only [blend_patch_with_alpha]
    rw [if_neg (by push_neg at hn ⊢; exact hn)]
    exact ⟨rfl, rfl, fun i j hij => if_pos hij, fun i j hij => if_neg hij⟩

/-- C6 witness: the no-op branch at the partially out-of-bounds offset (1, 0)
and the blend formula at the fully in-bounds offset (0, 0). -/
theorem blend_patch_oob_noop_witness :
    blend_patch_with_alpha blendBase blendPatch blendAlpha (1, 0) = blendBase ∧
    (blend_patch_with_alpha blendBase blendPatch blendAlpha (0, 0)).pix 0 1 =
      u8BlendPx (blendPatch.pix 0 1) (blendAlpha.pix 0 1) (blendBase.pix 0 1) :=
  ⟨(blend_patch_oob_noop blendBase blendPatch blendAlpha 1 0).1 (by decide),
   ((blend_patch_oob_noop blendBase blendPatch blendAlpha 0 0).2 (by decide)).2.2.1 0 1
     (by decide)⟩

/-- A slice bound that already lies inside [0, L] is its own effective index. -/
theorem sliceIdx_eq_toNat {i : Int} {L : Nat} (h0 : 0 ≤ i) (h1 : i ≤ L) :
    sliceIdx i L = i.toNat := by
  simp only [sliceIdx]
  rw [if_neg (by omega)]
  omega

/-- C7: with feather disabled, the RGBA patch emitted by
create_transparent_patch carries the original mask cropped to the given bbox
as its alpha channel, pixel for pixel, so decoding the lossless PNG recovers
the mask exactly.  The bbox is assumed in-bounds and non-degenerate with the
mask sized like the background, which is how the pipeline calls it (its bbox
argument is the final clipped bbox and the mask spans the image). -/
theorem transparent_patch_alpha_eq_mask (background : Img) (mask : GrayImg) (bbox : BBox)
    (hmh : mask.h = background.h) (hmw : mask.w = background.w)
    (hx : 0 ≤ bbox.x) (hy : 0 ≤ bbox.y) (hw : 0 < bbox.w) (hh : 0 < bbox.h)
    (hxw : bbox.x + bbox.w ≤ background.w) (hyh : bbox.y + bbox.h ≤ background.h) :
    ∃ patch, create_transparent_patch background mask bbox false = .ok patch ∧
      patch.h = bbox.h.toNat ∧ patch.w = bbox.w.toNat ∧
      ∀ i j, patch.alpha i j = mask.pix (bbox.y.toNat + i) (bbox.x.toNat + j) := by
  have ex : max 0 bbox.x = bbox.x := max_eq_right hx
  have ey : max 0 bbox.y = bbox.y := max_eq_right hy
  have ex2 : min (background.w : Int) (bbox.x + bbox.w) = bbox.x + bbox.w := min_eq_right hxw
  have ey2 : min (background.h : Int) (bbox.y + bbox.h) = bbox.y + bbox.h := min_eq_right hyh
  have sxB : sliceIdx bbox.x background.w = bbox.x.toNat := sliceIdx_eq_toNat hx (by omega)
  have syB : sliceIdx bbox.y background.h = bbox.y.toNat := sliceIdx_eq_toNat hy (by omega)
  have sxM : sliceIdx bbox.x mask.w = bbox.x.toNat := sliceIdx_eq_toNat hx (by omega)
  have syM : sliceIdx bbox.y mask.h = bbox.y.toNat := sliceIdx_eq_toNat hy (by omega)
  have sx2B : sliceIdx (bbox.x + bbox.w) background.w = (bbox.x + bbox.w).toNat :=
    sliceIdx_eq_toNat (by omega) (by omega)
  have sy2B : sliceIdx (bbox.y + bbox.h) background.h = (bbox.y + bbox.h).toNat :=
    sliceIdx_eq_toNat (by omega) (by omega)
  simp only [create_transparent_patch, cropImg, cropGray, ex, ey, ex2, ey2,
    sxB, syB, sxM, syM, sx2B, sy2B, Bool.false_eq_true, if_false]
  rw [if_neg (by omega)]
  exact ⟨_, rfl, by dsimp only; omega, by dsimp only; omega, fun i j => rfl⟩

/-- A concrete 2x2 background whose red channel encodes the coordinates. -/
def bg7 : Img :=
  ⟨2, 2, fun i j => ((10 * i + j : ℕ), 0, 0)⟩

/-- A concrete 2x2 mask whose value encodes the coordinates. -/
def mask7 : GrayImg :=
  ⟨2, 2, fun i j => (10 * i + j : ℕ)⟩

/-- C7 witness: the alpha round-trip evaluated on a concrete 2x2 image with
the in-bounds bbox (1, 0, 1, 2). -/
theorem transparent_patch_alpha_eq_mask_witness :
    ∃ patch, create_transparent_patch bg7 mask7 ⟨1, 0, 1, 2⟩ false = .ok patch ∧
      patch.h = (⟨1, 0, 1, 2⟩ : BBox).h.toNat ∧ patch.w = (⟨1, 0, 1, 2⟩ : BBox).w.toNat ∧
      ∀ i j, patch.alpha i j =
        mask7.pix ((⟨1, 0, 1, 2⟩ : BBox).y.toNat + i) ((⟨1, 0, 1, 2⟩ : BBox).x.toNat + j) :=
  transparent_patch_alpha_eq_mask bg7 mask7 ⟨1, 0, 1, 2⟩ rfl rfl (by decide) (by decide)
    (by decide) (by decide) (by decide) (by decide)

unseal Rat.mul Rat.add Rat.sub Rat.inv Rat.ofScientific in
/-- C2, code bug: on a uniform white 2x2 image whose ROI holds exactly two
background pixels (standard deviation 0 in every channel, well below 10), the
solid model must be accepted according to the spec; instead
pipeline.py line 111 reshapes the (2, 3) background array to (-1, 3, 3),
numpy raises ValueError (6 elements do not fit a multiple of 9), and
generate_patch reports failure with no background model at all.  The adjacent
line 122 shows the intended reshape (-1, 1, 3). -/
theorem pipeline_solid_reshape_code_bug :
    bgPixelList (cropImg (cvtColor_RGB2BGR (whiteImg 2 2)) 0 1 0 2)
        (cropGray (rasterize_quad candReshape.quad 2 2) 0 1 0 2) =
      [(255, 255, 255), (255, 255, 255)] ∧
    (is_solid_color [(255, 255, 255), (255, 255, 255)]).1 = true ∧
    (generate_patch (.valid (whiteImg 2 2)) candReshape 0 "auto" "v1").success = false ∧
    (generate_patch (.valid (whiteImg 2 2)) candReshape 0 "auto" "v1").error =
      some "cannot reshape array into shape (3,3)" ∧
    (generate_patch (.valid (whiteImg 2 2)) candReshape 0 "auto" "v1").debug_info.bg_model =
      none := by
  decide

set_option maxRecDepth 100000 in
unseal Rat.mul Rat.add Rat.sub Rat.inv Rat.ofScientific in
/-- C3 counterexample: on a 6x6 ramp ROI with only 36 background pixels — not
more than 100 — the gradient test is attempted and accepted (the guard
compares the element count 36 * 3 = 108 against 100, not the pixel count), so
the claimed more-than-100-pixels precondition is false. -/
theorem gradient_pixel_threshold_cex :
    (generate_patch (.valid gradImg6) candGradient 0 "auto" "v1").debug_info.bg_model =
      some "gradient" ∧
    (bgPixelList (cropImg (cvtColor_RGB2BGR gradImg6) 0 6 0 6)
        (cropGray (rasterize_quad candGradient.quad 6 6) 0 6 0 6)).length = 36 := by
  decide

/-- A 3x13 black/white checkerboard: its background is neither solid nor does
it reach the gradient guard from a 9-pixel ROI. -/
def checkerImg : Img :=
  ⟨3, 13, fun i j => if (i + j) % 2 = 0 then (255, 255, 255) else (0, 0, 0)⟩

/-- Candidate whose quad and bbox lie fully outside a 13-wide, 3-tall image
on the left: x + w = -10 < 0. -/
def candOutside2 : Candidate :=
  ⟨[(-12, 0), (-11, 0), (-11, 2), (-12, 2)], some ⟨-12, 0, 2, 3⟩⟩

set_option maxRecDepth 100000 in
unseal Rat.mul Rat.add Rat.sub Rat.inv Rat.ofScientific in
/-- C4 counterexample: the bbox (-12, 0, 2, 5) lies fully outside a 13x5
image on the left (x + w = -10 ≤ 0) and clipping yields w = -10, not w = 0.
On a white image the wrapped-around ROI passes the solid test but
generate_solid_fill((5, -10)) raises the numpy negative-dimensions
ValueError, so the error string is that ValueError text — not a
DegenerateRegionError, which exists nowhere in the code.  And on a
checkerboard image, where the fully-outside bbox reaches the inpaint path
instead of a fill, generate_patch even returns success = true, so neither
the w = h = 0 part nor the always-success=false part of the claim holds. -/
theorem fully_outside_bbox_cex :
    (clip_bbox_to_image ⟨-12, 0, 2, 5⟩ 13 5).w = -10 ∧
    (⟨-12, 0, 2, 5⟩ : BBox).x + (⟨-12, 0, 2, 5⟩ : BBox).w ≤ 0 ∧
    (generate_patch (.valid (whiteImg 5 13)) candOutside 0 "auto" "v1").success = false ∧
    (generate_patch (.valid (whiteImg 5 13)) candOutside 0 "auto" "v1").error =
      some "negative dimensions are not allowed" ∧
    (generate_patch (.valid checkerImg) candOutside2 0 "auto" "v1").success = true := by
  decide

/-- C10 counterexample: with mode "inpaint" and undecodable image bytes,
generate_patch fails during decoding and its debug_info carries no bg_model
key at all, so debug_info.bg_model does not equal "inpaint" for every
input. -/
theorem inpaint_mode_missing_bg_model_cex :
    (generate_patch (.invalid "not an image") candReshape 8 "inpaint" "v1").success = false ∧
    (generate_patch (.invalid "not an image") candReshape 8 "inpaint" "v1").debug_info.bg_model =
      none := by
  decide

/-- With mode "inpaint", the background-selection step of the pipeline goes
straight to the inpaint fallback: neither the solid nor the gradient branch is
reachable. -/
theorem select_background_inpaint_mode (roi : Img) (m : GrayImg) (bh bw : Int)
    (dbg : DebugInfo) :
    select_background "inpaint" roi m bh bw dbg = inpaint_step roi m dbg := by
  unfold select_background gradient_then_inpaint
  simp

/-- The inpaint step either fails on an empty ROI or reports the "inpaint"
model with the Telea method recorded; it touches no other debug field. -/
theorem inpaint_step_shape (roi : Img) (m : GrayImg) (dbg : DebugInfo) :
    inpaint_step roi m dbg =
      .error "OpenCV assertion failed: src is empty in function inpaint" ∨
    inpaint_step roi m dbg =
      .ok ("inpaint", roi, { dbg with inpaint_method := some "telea" }) := by
  unfold inpaint_step inpaint_auto inpaint_telea cv2_inpaint
  split_ifs <;> simp_all

/-- C10 amended: with mode "inpaint" forced, generate_patch never performs
the solid-colour or gradient test (debug_info records no solid_color and no
gradient_params, and bg_model is never "solid" or "gradient"); whenever the
pipeline reaches the background-modelling stage — in particular on every
successful call — debug_info.bg_model is "inpaint", but a call that fails
before that stage (for example on undecodable bytes) returns a debug_info
without any bg_model entry. -/
theorem inpaint_mode_bypass (image_bytes : ImageBytes) (candidate : Candidate)
    (padding_px : Int) (ver : String) :
    (generate_patch image_bytes candidate padding_px "inpaint" ver).debug_info.solid_color =
      none ∧
    (generate_patch image_bytes candidate padding_px "inpaint" ver).debug_info.gradient_params =
      none ∧
    ((generate_patch image_bytes candidate padding_px "inpaint" ver).debug_info.bg_model = none ∨
     (generate_patch image_bytes candidate padding_px "inpaint" ver).debug_info.bg_model =
       some "inpaint") ∧
    ((generate_patch image_bytes candidate padding_px "inpaint" ver).success = true →
      (generate_patch image_bytes candidate padding_px "inpaint" ver).debug_info.bg_model =
        some "inpaint") := by
  unfold generate_patch generate_patch_core
  cases image_bytes with
  | invalid msg => simp [decodeImage]
  | valid img =>
    simp only [decodeImage]
    cases hbb : (match candidate.bbox with
        | some b => Except.ok b
        | none => quad_to_bbox candidate.quad) with
    | error e => simp
    | ok b =>
      dsimp only
      rw [select_background_inpaint_mode]
      rcases inpaint_step_shape
          (cropImg (cvtColor_RGB2BGR img)
            (clip_bbox_to_image (expand_bbox b padding_px) (cvtColor_RGB2BGR img).w
                (cvtColor_RGB2BGR img).h).y
            ((clip_bbox_to_image (expand_bbox b padding_px) (cvtColor_RGB2BGR img).w
                (cvtColor_RGB2BGR img).h).y +
              (clip_bbox_to_image (expand_bbox b padding_px) (cvtColor_RGB2BGR img).w
                (cvtColor_RGB2BGR img).h).h)
            (clip_bbox_to_image (expand_bbox b padding_px) (cvtColor_RGB2BGR img).w
                (cvtColor_RGB2BGR img).h).x
            ((clip_bbox_to_image (expand_bbox b padding_px) (cvtColor_RGB2BGR img).w
                (cvtColor_RGB2BGR img).h).x +
              (clip_bbox_to_image (expand_bbox b padding_px) (cvtColor_RGB2BGR img).w
                (cvtColor_RGB2BGR img).h).w))
          (cropGray (rasterize_quad candidate.quad (cvtColor_RGB2BGR img).h
              (cvtColor_RGB2BGR img).w)
            (clip_bbox_to_image (expand_bbox b padding_px) (cvtColor_RGB2BGR img).w
                (cvtColor_RGB2BGR img).h).y
            ((clip_bbox_to_image (expand_bbox b padding_px) (cvtColor_RGB2BGR img).w
                (cvtColor_RGB2BGR img).h).y +
              (clip_bbox_to_image (expand_bbox b padding_px) (cvtColor_RGB2BGR img).w
                (cvtColor_RGB2BGR img).h).h)
            (clip_bbox_to_image (expand_bbox b padding_px) (cvtColor_RGB2BGR img).w
                (cvtColor_RGB2BGR img).h).x
            ((clip_bbox_to_image (expand_bbox b padding_px) (cvtColor_RGB2BGR img).w
                (cvtColor_RGB2BGR img).h).x +
              (clip_bbox_to_image (expand_bbox b padding_px) (cvtColor_RGB2BGR img).w
                (cvtColor_RGB2BGR img).h).w))
          { mode := "inpaint", algo_version := ver, padding_px := padding_px,
            bbox_orig := some b,
            bbox_final := clip_bbox_to_image (expand_bbox b padding_px)
              (cvtColor_RGB2BGR img).w (cvtColor_RGB2BGR img).h }
        with h | h <;> rw [h]
      · simp
      · dsimp only
        split <;> rename_i heq <;> split at heq <;> cases heq <;> simp

unseal Rat.mul Rat.add Rat.sub Rat.inv Rat.ofScientific in
/-- C10 witness: the inpaint-mode bypass evaluated on a concrete succeeding
call, discharging the success hypothesis. -/
theorem inpaint_mode_bypass_witness :
    (generate_patch (.valid (whiteImg 2 2)) candReshape 0 "inpaint" "v1").debug_info.bg_model =
      some "inpaint" :=
  (inpaint_mode_bypass (.valid (whiteImg 2 2)) candReshape 0 "v1").2.2.2 (by decide)

/-- An ROI with zero width contributes no background pixels. -/
theorem bgPixelList_of_width_zero (roi : Img) (m : GrayImg) (h : roi.w = 0) :
    bgPixelList roi m = [] := by
  unfold bgPixelList
  rw [h]
  induction List.range roi.h with
  | nil => rfl
  | cons a t ih => simp_all

/-- On an ROI with zero width every background-model branch collapses: the
solid test sees no pixels, the gradient guard fails, and cv2.inpaint raises on
the empty source, so the selection step returns that error in every mode. -/
theorem select_background_empty_roi (mode : String) (roi : Img) (m : GrayImg)
    (bh bw : Int) (dbg : DebugInfo) (h : roi.w = 0) :
    select_background mode roi m bh bw dbg =
      .error "OpenCV assertion failed: src is empty in function inpaint" := by
  have hbg : bgPixelList roi m = [] := bgPixelList_of_width_zero roi m h
  unfold select_background gradient_then_inpaint inpaint_step inpaint_auto inpaint_telea
    cv2_inpaint
  simp [hbg, is_solid_color, h]

/-- A crop whose column slice starts at or beyond the image width is empty. -/
theorem cropImg_width_zero (img : Img) (y0 y1 x0 x1 : Int) (h0 : 0 ≤ x0)
    (h1 : (img.w : Int) ≤ x0) : (cropImg img y0 y1 x0 x1).w = 0 := by
  simp only [cropImg, sliceIdx]
  split_ifs <;> omega

/-- C4 amended: clipping a bbox (with nonnegative dimensions) that lies fully
outside the image yields w ≤ 0 or h ≤ 0 — negative in general, not w = h = 0;
and generate_patch on a candidate whose padded bbox starts at or beyond the
right image edge reports success = false with an error string (the generic
caught-exception text: no DegenerateRegionError type exists in the code) and
never raises.  A bbox fully outside on the LEFT is not covered by the
failure statement: there the negative clipped width wraps around as a Python
negative slice stop and the call can even succeed (see the counterexample). -/
theorem clip_fully_outside_and_pipeline :
    (∀ (b : BBox) (W H : Nat), 0 ≤ b.w → 0 ≤ b.h →
      ((W : Int) ≤ b.x ∨ b.x + b.w ≤ 0 ∨ (H : Int) ≤ b.y ∨ b.y + b.h ≤ 0) →
      (clip_bbox_to_image b W H).w ≤ 0 ∨ (clip_bbox_to_image b W H).h ≤ 0) ∧
    (∀ (img : Img) (q : List (Int × Int)) (b : BBox) (p : Int) (mode ver : String),
      0 ≤ p → 0 ≤ b.w → 0 ≤ b.h → (img.w : Int) + p ≤ b.x →
      (generate_patch (.valid img) ⟨q, some b⟩ p mode ver).success = false ∧
      (generate_patch (.valid img) ⟨q, some b⟩ p mode ver).error.isSome = true) := by
  constructor
  · intro b W H hw hh hcase
    simp only [clip_bbox_to_image]
    omega
  · intro img q b p mode ver hp hw hh hx
    unfold generate_patch generate_patch_core
    simp only [decodeImage]
    rw [select_background_empty_roi _ _ _ _ _ _
      (cropImg_width_zero _ _ _ _ _
        (by simp only [cvtColor_RGB2BGR, clip_bbox_to_image, expand_bbox]; omega)
        (by simp only [cvtColor_RGB2BGR, clip_bbox_to_image, expand_bbox]; omega))]
    simp

/-- Acceptance shape of bg_fit.fit_linear_gradient: an accepted fit always has
MAE strictly below 15, is the direction of (weakly) lower MAE — horizontal
only when strictly lower, vertical otherwise — and records the first/last-5
column (resp. row) mean colours and the winning MAE. -/
theorem fit_linear_gradient_accept (roi : Img) (params : GradParams)
    (hfit : fit_linear_gradient roi = .ok (some params)) :
    params.mae < 15 ∧
    ((params.direction = "horizontal" ∧ params.mae = hGradMAE roi ∧
      hGradMAE roi < vGradMAE roi ∧
      params.start_color = meanOverCols roi 0 (min 5 roi.w) ∧
      params.end_color = meanOverCols roi (sliceIdx (-5) roi.w) roi.w) ∨
     (params.direction = "vertical" ∧ params.mae = vGradMAE roi ∧
      ¬ hGradMAE roi < vGradMAE roi ∧
      params.start_color = meanOverRows roi 0 (min 5 roi.h) ∧
      params.end_color = meanOverRows roi (sliceIdx (-5) roi.h) roi.h)) := by
  unfold fit_linear_gradient fitHorizontal fitVertical at hfit
  split at hfit
  · cases hfit
  · split at hfit
    · cases hfit
    · rename_i hmae heqh
      split at heqh
      · cases heqh
      · cases heqh
        split at hfit
        · cases hfit
        · rename_i vmae heqv
          split at heqv
          · cases heqv
          · cases heqv
            split at hfit
            · rename_i hacc
              cases hfit
              exact ⟨hacc.2, Or.inl ⟨rfl, rfl, hacc.1, rfl, rfl⟩⟩
            · split at hfit
              · rename_i hacc hacc2
                cases hfit
                refine ⟨hacc2, Or.inr ⟨rfl, rfl, fun hlt => hacc ⟨hlt, lt_trans hlt hacc2⟩,
                  rfl, rfl⟩⟩
              · cases hfit

/-- Rejection shape of bg_fit.fit_linear_gradient: when both regressions run
and neither direction is accepted, both MAEs are at least 15. -/
theorem fit_linear_gradient_reject (roi : Img)
    (hfit : fit_linear_gradient roi = .ok none) :
    roi.h = 0 ∨ roi.w = 0 ∨ 15 ≤ min (hGradMAE roi) (vGradMAE roi) := by
  unfold fit_linear_gradient fitHorizontal fitVertical at hfit
  split at hfit
  · rename_i hempty
    exact hempty.elim (fun a => Or.inl a) (fun a => Or.inr (Or.inl a))
  · split at hfit
    · cases hfit
    · rename_i hmae heqh
      split at heqh
      · cases heqh
      · cases heqh
        split at hfit
        · cases hfit
        · rename_i vmae heqv
          split at heqv
          · cases heqv
          · cases heqv
            split at hfit
            · cases hfit
            · split at hfit
              · cases hfit
              · rename_i hacc hacc2
                have hv : 15 ≤ vGradMAE roi := not_lt.mp hacc2
                refine Or.inr (Or.inr (le_min ?_ hv))
                rcases not_and_or.mp hacc with h1 | h1
                · exact le_trans hv (not_lt.mp h1)
                · exact not_lt.mp h1

/-- C3 amended: in mode "auto" — with the background pixel count divisible
by 3 so the solid test does not crash, and with nonnegative clipped bbox
dimensions, since negative dimensions make the numpy fill generation raise
before anything is recorded — the gradient model is selected exactly when the
solid test rejected, the background pixel ARRAY has more than 100 elements
(the guard compares bg_region.size, which counts 3 elements per background
pixel, so 34 background pixels already suffice, not more than 100 pixels) and
fit_linear_gradient accepts; an accepted fit has MAE < 15, is the lower-MAE
direction (vertical on ties), and records the direction, the first/last-5
column or row mean colours and the MAE, while a completed rejection means
both MAEs are at least 15. -/
theorem gradient_attempt_characterization (roi : Img) (m : GrayImg) (bh bw : Int)
    (dbg : DebugInfo) (hmod : (bgPixelList roi m).length % 3 = 0)
    (hbh : 0 ≤ bh) (hbw : 0 ≤ bw) :
    ((∃ fill dbg2, select_background "auto" roi m bh bw dbg = .ok ("gradient", fill, dbg2)) ↔
      ((is_solid_color (bgPixelList roi m)).1 = false ∧
       3 * (bgPixelList roi m).length > 100 ∧
       ∃ params, fit_linear_gradient roi = .ok (some params))) ∧
    (∀ params, fit_linear_gradient roi = .ok (some params) →
      params.mae < 15 ∧
      ((params.direction = "horizontal" ∧ params.mae = hGradMAE roi ∧
        hGradMAE roi < vGradMAE roi ∧
        params.start_color = meanOverCols roi 0 (min 5 roi.w) ∧
        params.end_color = meanOverCols roi (sliceIdx (-5) roi.w) roi.w) ∨
       (params.direction = "vertical" ∧ params.mae = vGradMAE roi ∧
        ¬ hGradMAE roi < vGradMAE roi ∧
        params.start_color = meanOverRows roi 0 (min 5 roi.h) ∧
        params.end_color = meanOverRows roi (sliceIdx (-5) roi.h) roi.h))) ∧
    (fit_linear_gradient roi = .ok none →
      roi.h = 0 ∨ roi.w = 0 ∨ 15 ≤ min (hGradMAE roi) (vGradMAE roi)) := by
  refine ⟨⟨?_, ?_⟩, fun params hfit => fit_linear_gradient_accept roi params hfit,
    fun hfit => fit_linear_gradient_reject roi hfit⟩
  · rintro ⟨fill, dbg2, hsel⟩
    simp only [select_background, true_or, if_true] at hsel
    rw [if_pos hmod] at hsel
    split at hsel
    · rename_i hsc
      split at hsel
      · cases hsel
      · simp at hsel
    · rename_i hsolid
      simp only [gradient_then_inpaint, true_or, true_and] at hsel
      split at hsel
      · rename_i hguard
        split at hsel
        · cases hsel
        · rename_i params heq
          split at hsel
          · cases hsel
          · exact ⟨by simpa using hsolid, hguard, params, heq⟩
        · rcases inpaint_step_shape roi m dbg with hs | hs <;> rw [hs] at hsel <;>
            simp at hsel
      · rcases inpaint_step_shape roi m dbg with hs | hs <;> rw [hs] at hsel <;>
          simp at hsel
  · rintro ⟨hsolid, hcount, params, hfit⟩
    obtain ⟨fill, hfill⟩ : ∃ fill, generate_gradient_fill bh bw params = .ok fill := by
      unfold generate_gradient_fill
      rw [if_neg (by omega)]
      exact ⟨_, rfl⟩
    refine ⟨overlayMasked roi m fill, { dbg with gradient_params := some params }, ?_⟩
    simp only [select_background, true_or, if_true]
    rw [if_pos hmod, if_neg (by simp [hsolid])]
    simp only [gradient_then_inpaint, true_or, true_and]
    rw [if_pos hcount, hfit]
    dsimp only
    rw [hfill]

/-- Decidable equality for Except values, needed to evaluate fit results. -/
instance instDecEqExcept {e a : Type} [DecidableEq e] [DecidableEq a] :
    DecidableEq (Except e a)
  | .error x, .error y =>
    if h : x = y then .isTrue (by rw [h]) else .isFalse (by simp [h])
  | .error _, .ok _ => .isFalse (by simp)
  | .ok _, .error _ => .isFalse (by simp)
  | .ok x, .ok y =>
    if h : x = y then .isTrue (by rw [h]) else .isFalse (by simp [h])

set_option maxRecDepth 100000 in
unseal Rat.mul Rat.add Rat.sub Rat.inv Rat.ofScientific in
/-- C3 witness: the gradient-attempt equivalence instantiated on the 6x6 ramp
ROI with an all-zero mask (36 background pixels, 108 array elements). -/
theorem gradient_attempt_characterization_witness :
    ∃ fill dbg2, select_background "auto" gradImg6 zeroMask6 6 6
      ⟨"auto", "v1", 0, none, none, none, none, none, none⟩ =
        .ok ("gradient", fill, dbg2) :=
  (gradient_attempt_characterization gradImg6 zeroMask6 6 6
      ⟨"auto", "v1", 0, none, none, none, none, none, none⟩ (by decide) (by decide)
      (by decide)).1.mpr
    ⟨by decide, by decide,
     ⟨⟨"vertical", (100, 100, 100), (100, 100, 100), 0⟩, by decide⟩⟩

unseal Rat.mul Rat.add Rat.sub Rat.inv Rat.ofScientific in
/-- C4 witness: the amended statement evaluated on a bbox fully beyond the
right edge of a 10x10 clip target and on a pipeline call whose bbox starts
beyond the right edge of a 4x4 image. -/
theorem clip_fully_outside_and_pipeline_witness :
    ((clip_bbox_to_image ⟨20, 0, 3, 3⟩ 10 10).w ≤ 0 ∨
     (clip_bbox_to_image ⟨20, 0, 3, 3⟩ 10 10).h ≤ 0) ∧
    (generate_patch (.valid (whiteImg 4 4))
        ⟨[(20, 0), (22, 0), (22, 2), (20, 2)], some ⟨20, 0, 3, 3⟩⟩ 0 "auto" "v1").success =
      false :=
  ⟨clip_fully_outside_and_pipeline.1 ⟨20, 0, 3, 3⟩ 10 10 (by decide) (by decide)
      (by decide),
   (clip_fully_outside_and_pipeline.2 (whiteImg 4 4) [(20, 0), (22, 0), (22, 2), (20, 2)]
      ⟨20, 0, 3, 3⟩ 0 "auto" "v1" (by decide) (by decide) (by decide) (by decide)).1⟩
